import Mathlib

/-!
Verification of `src/packages/workbox-core/internal/utils/logger.mjs`.

The file is embedded shallowly: the Logger's single mutable field
`_logLevel` becomes an explicit state record, the platform console becomes
a list of emitted `ConsoleEvent`s, JavaScript values passed to the
`logLevel` setter become a small `JSValue` type, and a thrown
`WorkboxError` becomes the error side of `Except`. JS numbers are modelled
by `JSNum`: NaN, the two infinities, and finite values as rationals (every
finite IEEE double is a rational), with the JS comparison semantics under
which every comparison involving NaN is false — so `logLevel = NaN` passes
both range guards of the setter and is stored, exactly as in JavaScript.
-/

/-- A JavaScript number: NaN, positive or negative Infinity, or a finite
value modelled as a rational (every finite IEEE-754 double is one). -/
inductive JSNum where
  | fin (q : ℚ)
  | nan
  | posInf
  | negInf
  deriving DecidableEq, Repr

/-- The JS `<` comparison of a number against a finite constant: false
whenever the number is NaN. -/
def JSNum.ltQ : JSNum → ℚ → Bool
  | .fin q, r => decide (q < r)
  | .nan, _ => false
  | .posInf, _ => false
  | .negInf, _ => true

/-- The JS `>` comparison of a number against a finite constant: false
whenever the number is NaN. -/
def JSNum.gtQ : JSNum → ℚ → Bool
  | .fin q, r => decide (r < q)
  | .nan, _ => false
  | .posInf, _ => true
  | .negInf, _ => false

/-- A JavaScript value, as far as the logger inspects one: the `logLevel`
setter branches on `typeof`, and the variadic log arguments are passed
through opaquely. -/
inductive JSValue where
  | num (n : JSNum)
  | str (s : String)
  | boolean (b : Bool)
  | undefined
  | nullV
  deriving DecidableEq, Repr

/-- The JS `typeof` operator restricted to the shapes of `JSValue`
(`typeof null` is `"object"` and `typeof NaN` is `"number"` in
JavaScript). -/
def jsTypeof : JSValue → String
  | .num _ => "number"
  | .str _ => "string"
  | .boolean _ => "boolean"
  | .undefined => "undefined"
  | .nullV => "object"

/-- The numeric content of a `JSValue` known (from a `typeof` test) to be a
number; the default on the other shapes is never reached under that guard. -/
def JSValue.toNum : JSValue → JSNum
  | .num n => n
  | _ => JSNum.fin 0

/-- Modelled from the spec: `WorkboxError` lives in
`packages/workbox-core/internal/models/WorkboxError.mjs`, which is not part
of the sources; per the spec it is a validation-error constructor accepting
an error-kind identifier and a details mapping (`paramName`,
`expectedType`/`validValueDescription`, `value`). -/
structure WorkboxError where
  errorCode : String
  paramName : String
  expectedType : Option String := none
  validValueDescription : Option String := none
  value : JSValue
  deriving DecidableEq, Repr

/-- `const VERBOSE_LOG_LEVEL = 0` (logger.mjs line 7). -/
def VERBOSE_LOG_LEVEL : ℚ := 0

/-- `const DEBUG_LOG_LEVEL = 1` (logger.mjs line 8). -/
def DEBUG_LOG_LEVEL : ℚ := 1

/-- `const WARNING_LOG_LEVEL = 2` (logger.mjs line 9). -/
def WARNING_LOG_LEVEL : ℚ := 2

/-- `const ERROR_LOG_LEVEL = 3` (logger.mjs line 10). -/
def ERROR_LOG_LEVEL : ℚ := 3

/-- `const GREY = '#7f8c8d'` (logger.mjs line 12). -/
def GREY : String := "#7f8c8d"

/-- `const GREEN = '#2ecc71'` (logger.mjs line 13). -/
def GREEN : String := "#2ecc71"

/-- `const YELLOW = '#f39c12'` (logger.mjs line 14). -/
def YELLOW : String := "#f39c12"

/-- `const RED = '#c0392b'` (logger.mjs line 15). -/
def RED : String := "#c0392b"

/-- The six console channels the logger forwards to: four output channels
plus the two grouping channels. -/
inductive Channel where
  | log
  | debug
  | warn
  | error
  | groupCollapsed
  | groupEnd
  deriving DecidableEq, Repr

/-- One observable console call: the channel invoked and the full argument
list passed to it. -/
structure ConsoleEvent where
  channel : Channel
  args : List JSValue
  deriving DecidableEq, Repr

/-- The Logger's state: the single mutable field `this._logLevel`, a JS
number (the setter's `typeof` guard keeps every other shape out, but NaN
is a JS number and can be stored). -/
structure LoggerState where
  _logLevel : JSNum
  deriving DecidableEq, Repr

namespace LoggerState

/-- `constructor() { this._logLevel = VERBOSE_LOG_LEVEL; }` (lines 27-30). -/
def initial : LoggerState := { _logLevel := JSNum.fin VERBOSE_LOG_LEVEL }

/-- The record returned by `get LOG_LEVELS` (lines 36-43). -/
structure LogLevelsMap where
  verbose : ℚ
  debug : ℚ
  warning : ℚ
  error : ℚ
  deriving DecidableEq, Repr

/-- `get LOG_LEVELS` (lines 36-43): a pure read returning the four named
constants; it neither reads nor writes `_logLevel`. -/
def LOG_LEVELS (_st : LoggerState) : LogLevelsMap :=
  { verbose := VERBOSE_LOG_LEVEL
    debug := DEBUG_LOG_LEVEL
    warning := WARNING_LOG_LEVEL
    error := ERROR_LOG_LEVEL }

/-- `set logLevel(newLevel)` (lines 50-71): throws `invalid-type` when
`typeof newLevel !== 'number'`, throws `invalid-value` when
`newLevel > ERROR_LOG_LEVEL || newLevel < VERBOSE_LOG_LEVEL` (JS
comparisons, so NaN fails neither guard), otherwise assigns
`this._logLevel = newLevel`. Both throws happen before the assignment, so
an error result carries no state change. -/
def setLogLevel (st : LoggerState) (newLevel : JSValue) :
    Except WorkboxError LoggerState :=
  if jsTypeof newLevel ≠ "number" then
    Except.error
      { errorCode := "invalid-type"
        paramName := "logLevel"
        expectedType := some "number"
        value := newLevel }
  else
    if newLevel.toNum.gtQ ERROR_LOG_LEVEL || newLevel.toNum.ltQ VERBOSE_LOG_LEVEL then
      Except.error
        { errorCode := "invalid-value"
          paramName := "logLevel"
          validValueDescription :=
            some ("Please use a value from LOG_LEVELS, i.e " ++
              "'logLevel = LOG_LEVELS.verbose'.")
          value := newLevel }
    else
      Except.ok { st with _logLevel := newLevel.toNum }

/-- The state after an assignment `logger.logLevel = v`: on success the new
state, on a throw the state the JS object was left in, which is the
original one because both throws in the setter precede the assignment. -/
def setLogLevelState (st : LoggerState) (v : JSValue) : LoggerState :=
  match st.setLogLevel v with
  | Except.ok st2 => st2
  | Except.error _ => st

/-- The two fixed elements `_print` prepends (lines 85-89): the marker
glyph with the `%c` style directive, and the style string interpolating the
severity's color. -/
def initLogOutput (levelColor : String) : List JSValue :=
  [JSValue.str "%c🔧",
   JSValue.str ("background: " ++ levelColor ++
     "; border-radius: 100%; color: white;\n        display: block; padding: 2px;")]

/-- `_print(logFunction, logArgs, minLevel, levelColor)` (lines 80-92):
returns early with no console call when `this._logLevel > minLevel` (a JS
comparison, false when the stored level is NaN), otherwise calls
`logFunction(...initLogOutput, ...logArgs)`. The target console function is
identified by its channel. -/
def _print (st : LoggerState) (logFunction : Channel) (logArgs : List JSValue)
    (minLevel : ℚ) (levelColor : String) : List ConsoleEvent :=
  if st._logLevel.gtQ minLevel then
    []
  else
    [{ channel := logFunction, args := initLogOutput levelColor ++ logArgs }]

/-- The callable returned by `_getLogFunc`: the plain call plus the two
properties attached to it. -/
structure LogFunc where
  call : List JSValue → List ConsoleEvent
  groupCollapsed : List JSValue → List ConsoleEvent
  groupEnd : List JSValue → List ConsoleEvent

/-- `_getLogFunc(logFunc, logLevel, color)` (lines 94-105): the plain call
prints through `logFunc`; `groupCollapsed` and `groupEnd` print through
`console.groupCollapsed` and `console.groupEnd`, all three gated by the
same `logLevel` and styled with the same `color`. -/
def _getLogFunc (st : LoggerState) (logFunc : Channel) (logLevel : ℚ)
    (color : String) : LogFunc :=
  { call := fun args => st._print logFunc args logLevel color
    groupCollapsed := fun args =>
      st._print Channel.groupCollapsed args logLevel color
    groupEnd := fun args =>
      st._print Channel.groupEnd args logLevel color }

/-- `get log` (lines 110-112). -/
def log (st : LoggerState) : LogFunc :=
  st._getLogFunc Channel.log VERBOSE_LOG_LEVEL GREY

/-- `get debug` (lines 117-119). -/
def debug (st : LoggerState) : LogFunc :=
  st._getLogFunc Channel.debug DEBUG_LOG_LEVEL GREEN

/-- `get warn` (lines 124-126). -/
def warn (st : LoggerState) : LogFunc :=
  st._getLogFunc Channel.warn WARNING_LOG_LEVEL YELLOW

/-- `get error` (lines 131-133). -/
def error (st : LoggerState) : LogFunc :=
  st._getLogFunc Channel.error ERROR_LOG_LEVEL RED

end LoggerState

/-- The four severities, indexing the four logging entry points. -/
inductive Severity where
  | verbose
  | debug
  | warning
  | error
  deriving DecidableEq, Repr

/-- The numeric level the entry point of each severity passes to
`_getLogFunc` (lines 110-133). -/
def Severity.level : Severity → ℚ
  | .verbose => VERBOSE_LOG_LEVEL
  | .debug => DEBUG_LOG_LEVEL
  | .warning => WARNING_LOG_LEVEL
  | .error => ERROR_LOG_LEVEL

/-- The console function the entry point of each severity passes to
`_getLogFunc` (lines 110-133). -/
def Severity.channel : Severity → Channel
  | .verbose => Channel.log
  | .debug => Channel.debug
  | .warning => Channel.warn
  | .error => Channel.error

/-- The color the entry point of each severity passes to `_getLogFunc`
(lines 110-133). -/
def Severity.color : Severity → String
  | .verbose => GREY
  | .debug => GREEN
  | .warning => YELLOW
  | .error => RED

/-- The getter-returned callable for a given severity. -/
def LoggerState.entryPoint (st : LoggerState) : Severity → LoggerState.LogFunc
  | .verbose => st.log
  | .debug => st.debug
  | .warning => st.warn
  | .error => st.error

/-- Which of the three operations of a returned callable is invoked: the
plain call, or one of its two attached grouping properties. -/
inductive GroupOp where
  | call
  | groupCollapsed
  | groupEnd
  deriving DecidableEq, Repr

/-- Select one of the three operations of a `LogFunc`. -/
def LoggerState.LogFunc.apply (f : LoggerState.LogFunc) :
    GroupOp → List JSValue → List ConsoleEvent
  | .call => f.call
  | .groupCollapsed => f.groupCollapsed
  | .groupEnd => f.groupEnd

/-- One interaction with the singleton logger: either an assignment
`logger.logLevel = v` or an invocation of one entry point's call,
`groupCollapsed` or `groupEnd` with some argument list. -/
inductive LoggerOp where
  | setLevel (v : JSValue)
  | invoke (s : Severity) (g : GroupOp) (args : List JSValue)

/-- Executing one operation: the resulting state, the console calls made,
and the thrown error if any. A throw in the setter leaves the state as it
was (both throws precede the assignment); the bodies of `_print` and of the
closures built by `_getLogFunc` contain no assignment to `_logLevel`, so an
invocation returns the input state. -/
def LoggerState.step (st : LoggerState) :
    LoggerOp → LoggerState × List ConsoleEvent × Option WorkboxError
  | .setLevel v =>
    match st.setLogLevel v with
    | Except.ok st2 => (st2, [], none)
    | Except.error e => (st, [], some e)
  | .invoke s g args => (st, (st.entryPoint s).apply g args, none)

/-- The states the module-load singleton can be in: reachable from the
constructed state by any sequence of operations. -/
inductive LoggerState.Reachable : LoggerState → Prop
  | init : LoggerState.Reachable LoggerState.initial
  | step (st : LoggerState) (op : LoggerOp) :
      LoggerState.Reachable st → LoggerState.Reachable (st.step op).1

/-- Characterization of `_print` at a finite stored threshold: a single
console call on the given channel with the two fixed elements prepended
when the threshold is at or below `minLevel`, nothing otherwise. -/
theorem LoggerState.print_eq (T : ℚ) (ch : Channel)
    (logArgs : List JSValue) (minLevel : ℚ) (c : String) :
    (LoggerState.mk (JSNum.fin T))._print ch logArgs minLevel c =
      if T ≤ minLevel then
        [{ channel := ch, args := LoggerState.initLogOutput c ++ logArgs }]
      else [] := by
  show (if JSNum.gtQ (JSNum.fin T) minLevel then _ else _) = _
  rcases le_or_lt T minLevel with h | h
  · rw [if_neg (by simp [JSNum.gtQ, not_lt.mpr h]), if_pos h]
  · rw [if_pos (by simp [JSNum.gtQ, h]), if_neg (not_le.mpr h)]

/-- The plain call of each entry point is `_print` at that severity's
channel, level and color. -/
theorem LoggerState.entry_call_eq (st : LoggerState) (S : Severity)
    (args : List JSValue) :
    (st.entryPoint S).call args = st._print S.channel args S.level S.color := by
  cases S <;> rfl

/-- The `groupCollapsed` property of each entry point is `_print` at the
`groupCollapsed` channel with that severity's level and color. -/
theorem LoggerState.entry_groupCollapsed_eq (st : LoggerState) (S : Severity)
    (args : List JSValue) :
    (st.entryPoint S).groupCollapsed args =
      st._print Channel.groupCollapsed args S.level S.color := by
  cases S <;> rfl

/-- The `groupEnd` property of each entry point is `_print` at the
`groupEnd` channel with that severity's level and color. -/
theorem LoggerState.entry_groupEnd_eq (st : LoggerState) (S : Severity)
    (args : List JSValue) :
    (st.entryPoint S).groupEnd args =
      st._print Channel.groupEnd args S.level S.color := by
  cases S <;> rfl

/-- C1: for every severity S and current (finite) threshold T, a call to
the entry point for S is forwarded to the console — exactly one console
call — iff T ≤ S, and is a no-op with no console output when T > S. -/
theorem c1_severity_gating (T : ℚ) (S : Severity) (args : List JSValue) :
    ((LoggerState.mk (JSNum.fin T)).entryPoint S).call args =
      if T ≤ S.level then
        [{ channel := S.channel,
           args := LoggerState.initLogOutput S.color ++ args }]
      else [] := by
  rw [LoggerState.entry_call_eq, LoggerState.print_eq]

/-- C4: the `groupCollapsed` and `groupEnd` sub-operations of each entry
point are suppressed exactly when the plain entry point of the same
severity is suppressed, and when not suppressed they forward to the
console's `groupCollapsed` and `groupEnd` channels respectively. -/
theorem c4_group_ops (T : ℚ) (S : Severity) (args : List JSValue) :
    (((LoggerState.mk (JSNum.fin T)).entryPoint S).groupCollapsed args =
        if T ≤ S.level then
          [{ channel := Channel.groupCollapsed,
             args := LoggerState.initLogOutput S.color ++ args }]
        else []) ∧
    (((LoggerState.mk (JSNum.fin T)).entryPoint S).groupEnd args =
        if T ≤ S.level then
          [{ channel := Channel.groupEnd,
             args := LoggerState.initLogOutput S.color ++ args }]
        else []) ∧
    (((LoggerState.mk (JSNum.fin T)).entryPoint S).groupCollapsed args = [] ↔
        ((LoggerState.mk (JSNum.fin T)).entryPoint S).call args = []) ∧
    (((LoggerState.mk (JSNum.fin T)).entryPoint S).groupEnd args = [] ↔
        ((LoggerState.mk (JSNum.fin T)).entryPoint S).call args = []) := by
  rw [LoggerState.entry_call_eq, LoggerState.entry_groupCollapsed_eq,
    LoggerState.entry_groupEnd_eq, LoggerState.print_eq, LoggerState.print_eq,
    LoggerState.print_eq]
  rcases le_or_lt T S.level with h | h
  · simp [h]
  · simp [h, not_le.mpr h]

/-- C5: each non-suppressed entry point forwards to the console channel of
its own name with the severity-specific color: `log` to `console.log` in
grey, `debug` to `console.debug` in green, `warn` to `console.warn` in
yellow, `error` to `console.error` in red. -/
theorem c5_channels_and_colors (T : ℚ) (args : List JSValue) :
    ((LoggerState.mk (JSNum.fin T)).log.call args =
        if T ≤ VERBOSE_LOG_LEVEL then
          [{ channel := Channel.log,
             args := LoggerState.initLogOutput GREY ++ args }]
        else []) ∧
    ((LoggerState.mk (JSNum.fin T)).debug.call args =
        if T ≤ DEBUG_LOG_LEVEL then
          [{ channel := Channel.debug,
             args := LoggerState.initLogOutput GREEN ++ args }]
        else []) ∧
    ((LoggerState.mk (JSNum.fin T)).warn.call args =
        if T ≤ WARNING_LOG_LEVEL then
          [{ channel := Channel.warn,
             args := LoggerState.initLogOutput YELLOW ++ args }]
        else []) ∧
    ((LoggerState.mk (JSNum.fin T)).error.call args =
        if T ≤ ERROR_LOG_LEVEL then
          [{ channel := Channel.error,
             args := LoggerState.initLogOutput RED ++ args }]
        else []) := by
  refine ⟨?_, ?_, ?_, ?_⟩ <;>
    simp only [LoggerState.log, LoggerState.debug, LoggerState.warn,
      LoggerState.error, LoggerState._getLogFunc] <;>
    rw [LoggerState.print_eq]

/-- C6: reading `LOG_LEVELS` returns the fixed mapping
verbose 0, debug 1, warning 2, error 3, whatever the current threshold; the
getter is a pure read with no side effects. -/
theorem c6_log_levels (n : JSNum) :
    (LoggerState.mk n).LOG_LEVELS =
      { verbose := 0, debug := 1, warning := 2, error := 3 } := rfl

/-- C7: the constructor initializes `_logLevel` to Verbose (0), so the
default-constructed Logger forwards messages of every severity. -/
theorem c7_initial_threshold :
    LoggerState.initial._logLevel = JSNum.fin VERBOSE_LOG_LEVEL ∧
    ∀ (S : Severity) (args : List JSValue),
      (LoggerState.initial.entryPoint S).call args =
        [{ channel := S.channel,
           args := LoggerState.initLogOutput S.color ++ args }] := by
  refine ⟨rfl, fun S args => ?_⟩
  rw [show LoggerState.initial = LoggerState.mk (JSNum.fin 0) from rfl,
    LoggerState.entry_call_eq, LoggerState.print_eq, if_pos]
  cases S <;> norm_num [Severity.level, VERBOSE_LOG_LEVEL, DEBUG_LOG_LEVEL,
    WARNING_LOG_LEVEL, ERROR_LOG_LEVEL]

/-- C8: a non-suppressed call passes the marker glyph and the styling
string as the first two console arguments followed by all original
arguments verbatim and in order; with zero arguments nothing is raised and
only the two fixed elements are emitted. -/
theorem c8_argument_forwarding (T : ℚ) (S : Severity) (args : List JSValue) :
    (((LoggerState.mk (JSNum.fin T)).entryPoint S).call args =
        if T ≤ S.level then
          [{ channel := S.channel,
             args := JSValue.str "%c🔧" ::
               JSValue.str ("background: " ++ S.color ++
                 "; border-radius: 100%; color: white;\n        display: block; padding: 2px;") ::
               args }]
        else []) ∧
    (((LoggerState.mk (JSNum.fin T)).entryPoint S).call [] =
        if T ≤ S.level then
          [{ channel := S.channel, args := LoggerState.initLogOutput S.color }]
        else []) ∧
    (LoggerState.initLogOutput S.color).length = 2 := by
  refine ⟨?_, ?_, rfl⟩ <;>
    rw [LoggerState.entry_call_eq, LoggerState.print_eq] <;>
    simp [LoggerState.initLogOutput]

/-- A successful `logLevel` assignment only stores values the range guards
cannot reject: NaN, or a finite number within
`[VERBOSE_LOG_LEVEL, ERROR_LOG_LEVEL]` (the infinities fail a guard). -/
theorem LoggerState.setLogLevel_ok_bounds (st : LoggerState) (v : JSValue)
    (st2 : LoggerState) (h : st.setLogLevel v = Except.ok st2) :
    st2._logLevel = JSNum.nan ∨
      ∃ q : ℚ, st2._logLevel = JSNum.fin q ∧
        VERBOSE_LOG_LEVEL ≤ q ∧ q ≤ ERROR_LOG_LEVEL := by
  unfold LoggerState.setLogLevel at h
  by_cases ht : jsTypeof v ≠ "number"
  · rw [if_pos ht] at h
    exact absurd h (by simp)
  · rw [if_neg ht] at h
    by_cases hr : (v.toNum.gtQ ERROR_LOG_LEVEL || v.toNum.ltQ VERBOSE_LOG_LEVEL) = true
    · rw [if_pos hr] at h
      exact absurd h (by simp)
    · rw [if_neg hr] at h
      cases h
      cases hn : v.toNum with
      | fin q =>
        rw [hn] at hr
        simp only [JSNum.gtQ, JSNum.ltQ, Bool.or_eq_true, decide_eq_true_eq,
          not_or, not_lt] at hr
        exact Or.inr ⟨q, hn ▸ rfl, hr.2, hr.1⟩
      | nan => exact Or.inl (hn ▸ rfl)
      | posInf =>
        rw [hn] at hr
        simp [JSNum.gtQ] at hr
      | negInf =>
        rw [hn] at hr
        simp [JSNum.ltQ] at hr

/-- The setter throws on every non-numeric value and on every number a
range guard rejects. -/
theorem LoggerState.setLogLevel_error_of_bad (st : LoggerState) (v : JSValue)
    (h : jsTypeof v ≠ "number" ∨ v.toNum.gtQ ERROR_LOG_LEVEL = true ∨
      v.toNum.ltQ VERBOSE_LOG_LEVEL = true) :
    ∃ e, st.setLogLevel v = Except.error e := by
  unfold LoggerState.setLogLevel
  by_cases ht : jsTypeof v ≠ "number"
  · exact ⟨_, by rw [if_pos ht]⟩
  · rw [if_neg ht]
    have hr : (v.toNum.gtQ ERROR_LOG_LEVEL || v.toNum.ltQ VERBOSE_LOG_LEVEL) = true := by
      rcases h with h | h | h
      · exact absurd h ht
      · simp [h]
      · simp [h]
    exact ⟨_, by rw [if_pos hr]⟩

/-- A throw in the setter leaves the logger's state unchanged. -/
theorem LoggerState.setLogLevelState_of_error (st : LoggerState) (v : JSValue)
    (h : ∃ e, st.setLogLevel v = Except.error e) :
    st.setLogLevelState v = st := by
  obtain ⟨e, he⟩ := h
  simp [LoggerState.setLogLevelState, he]

/-- C2: assigning `logLevel` throws `invalid-type` iff the value is not
number-typed, throws `invalid-value` iff it is number-typed but compares
(JS comparison) below Verbose (0) or above Error (3), and otherwise
replaces the threshold with the value; on either throw the previous
threshold remains in effect. -/
theorem c2_setter (st : LoggerState) (v : JSValue) :
    ((∃ e, st.setLogLevel v = Except.error e ∧ e.errorCode = "invalid-type") ↔
        jsTypeof v ≠ "number") ∧
    ((∃ e, st.setLogLevel v = Except.error e ∧ e.errorCode = "invalid-value") ↔
        jsTypeof v = "number" ∧
          (v.toNum.ltQ VERBOSE_LOG_LEVEL = true ∨
            v.toNum.gtQ ERROR_LOG_LEVEL = true)) ∧
    ((∃ e, st.setLogLevel v = Except.error e) → st.setLogLevelState v = st) ∧
    (jsTypeof v = "number" → v.toNum.ltQ VERBOSE_LOG_LEVEL = false →
      v.toNum.gtQ ERROR_LOG_LEVEL = false →
      st.setLogLevel v = Except.ok { st with _logLevel := v.toNum }) := by
  refine ⟨?_, ?_, LoggerState.setLogLevelState_of_error st v, ?_⟩
  · unfold LoggerState.setLogLevel
    by_cases ht : jsTypeof v ≠ "number"
    · simp [ht]
    · rw [if_neg ht]
      by_cases hr : (v.toNum.gtQ ERROR_LOG_LEVEL || v.toNum.ltQ VERBOSE_LOG_LEVEL) = true
      · rw [if_pos hr]
        simp [ht]
      · rw [if_neg hr]
        simp [ht]
  · unfold LoggerState.setLogLevel
    by_cases ht : jsTypeof v ≠ "number"
    · simp [ht]
    · rw [if_neg ht]
      push_neg at ht
      by_cases hr : (v.toNum.gtQ ERROR_LOG_LEVEL || v.toNum.ltQ VERBOSE_LOG_LEVEL) = true
      · rw [if_pos hr]
        simp only [Bool.or_eq_true] at hr
        simp only [Except.error.injEq]
        constructor
        · intro _
          exact ⟨ht, hr.symm.imp id id⟩
        · intro _
          exact ⟨_, rfl, rfl⟩
      · rw [if_neg hr]
        simp only [Bool.or_eq_true, not_or, Bool.not_eq_true] at hr
        simp only [reduceCtorEq, false_and, exists_false, false_iff, not_and,
          not_or]
        intro _
        exact ⟨by simp [hr.2], by simp [hr.1]⟩
  · intro ht h0 h3
    unfold LoggerState.setLogLevel
    rw [if_neg (by simp [ht]), if_neg (by simp [h0, h3])]

/-- C2 witness: assigning a string to a logger at threshold 2 throws and
leaves the threshold at 2; assigning the number 1 succeeds and stores 1. -/
theorem c2_setter_witness :
    (LoggerState.mk (JSNum.fin 2)).setLogLevelState (JSValue.str "x") =
      LoggerState.mk (JSNum.fin 2) ∧
    (LoggerState.mk (JSNum.fin 2)).setLogLevel (JSValue.num (JSNum.fin 1)) =
      Except.ok (LoggerState.mk (JSNum.fin 1)) := by
  constructor
  · exact (c2_setter (LoggerState.mk (JSNum.fin 2)) (JSValue.str "x")).2.2.1
      ⟨_, rfl⟩
  · have h := (c2_setter (LoggerState.mk (JSNum.fin 2))
      (JSValue.num (JSNum.fin 1))).2.2.2 rfl
      (by norm_num [JSValue.toNum, JSNum.ltQ, VERBOSE_LOG_LEVEL])
      (by norm_num [JSValue.toNum, JSNum.gtQ, ERROR_LOG_LEVEL])
    exact h

/-- C3 counterexample: two number-typed values outside the four-element set
{0, 1, 2, 3} do not make the setter fail: assigning 3/2 succeeds and
mutates the threshold to 3/2, and assigning NaN — for which both JS range
comparisons are false — succeeds and mutates the threshold to NaN. -/
theorem c3_counterexample :
    LoggerState.initial.setLogLevel (JSValue.num (JSNum.fin (3/2))) =
      Except.ok (LoggerState.mk (JSNum.fin (3/2))) ∧
    ((3 : ℚ)/2 ≠ VERBOSE_LOG_LEVEL ∧ (3 : ℚ)/2 ≠ DEBUG_LOG_LEVEL ∧
      (3 : ℚ)/2 ≠ WARNING_LOG_LEVEL ∧ (3 : ℚ)/2 ≠ ERROR_LOG_LEVEL) ∧
    LoggerState.initial.setLogLevel (JSValue.num JSNum.nan) =
      Except.ok (LoggerState.mk JSNum.nan) := by
  refine ⟨?_, ?_, ?_⟩
  · unfold LoggerState.setLogLevel
    rw [if_neg (by simp [jsTypeof]),
      if_neg (by norm_num [JSValue.toNum, JSNum.gtQ, JSNum.ltQ,
        VERBOSE_LOG_LEVEL, ERROR_LOG_LEVEL])]
    rfl
  · norm_num [VERBOSE_LOG_LEVEL, DEBUG_LOG_LEVEL, WARNING_LOG_LEVEL,
      ERROR_LOG_LEVEL]
  · unfold LoggerState.setLogLevel
    rw [if_neg (by simp [jsTypeof]),
      if_neg (by simp [JSValue.toNum, JSNum.gtQ, JSNum.ltQ])]
    rfl

/-- C3 amended: at every reachable state the threshold is number-typed and
is a value the setter's range guards cannot reject — either NaN (for which
both JS range comparisons are false) or a finite number in the closed
interval [Verbose, Error] = [0, 3], not necessarily one of the four
enumerated ordinals — and every attempt to set a non-numeric value, or a
number that compares greater than 3 or less than 0, throws before mutating
state. -/
theorem c3_amended_invariant :
    (∀ st : LoggerState, st.Reachable →
      st._logLevel = JSNum.nan ∨
        ∃ q : ℚ, st._logLevel = JSNum.fin q ∧
          VERBOSE_LOG_LEVEL ≤ q ∧ q ≤ ERROR_LOG_LEVEL) ∧
    (∀ (st : LoggerState) (v : JSValue),
      (jsTypeof v ≠ "number" ∨ v.toNum.gtQ ERROR_LOG_LEVEL = true ∨
        v.toNum.ltQ VERBOSE_LOG_LEVEL = true) →
      (∃ e, st.setLogLevel v = Except.error e) ∧
        st.setLogLevelState v = st) := by
  constructor
  · intro st h
    induction h with
    | init =>
      exact Or.inr ⟨0, rfl, by norm_num [VERBOSE_LOG_LEVEL, ERROR_LOG_LEVEL]⟩
    | step st op hr ih =>
      cases op with
      | invoke s g args => simpa [LoggerState.step] using ih
      | setLevel v =>
        rcases hset : st.setLogLevel v with e | st2
        · simpa [LoggerState.step, hset] using ih
        · simpa [LoggerState.step, hset] using
            LoggerState.setLogLevel_ok_bounds st v st2 hset
  · intro st v h
    have he := LoggerState.setLogLevel_error_of_bad st v h
    exact ⟨he, LoggerState.setLogLevelState_of_error st v he⟩

/-- C3 amended witness: the initial state satisfies the invariant, and
assigning the out-of-range number 4 to a logger at threshold 2 throws and
leaves the threshold at 2. -/
theorem c3_amended_witness :
    (LoggerState.initial._logLevel = JSNum.nan ∨
      ∃ q : ℚ, LoggerState.initial._logLevel = JSNum.fin q ∧
        VERBOSE_LOG_LEVEL ≤ q ∧ q ≤ ERROR_LOG_LEVEL) ∧
    ((∃ e, (LoggerState.mk (JSNum.fin 2)).setLogLevel
        (JSValue.num (JSNum.fin 4)) = Except.error e) ∧
      (LoggerState.mk (JSNum.fin 2)).setLogLevelState
        (JSValue.num (JSNum.fin 4)) = LoggerState.mk (JSNum.fin 2)) := by
  refine ⟨c3_amended_invariant.1 LoggerState.initial LoggerState.Reachable.init,
    c3_amended_invariant.2 (LoggerState.mk (JSNum.fin 2))
      (JSValue.num (JSNum.fin 4)) ?_⟩
  right; left
  norm_num [JSValue.toNum, JSNum.gtQ, ERROR_LOG_LEVEL]

/-- C9: every finite number in [0, 3] — including non-integers such as
3/2 — is accepted by the setter and stored verbatim; gating then compares
against the stored value, so at threshold 3/2 a debug call (severity 1) is
suppressed while a warn call (severity 2) is forwarded. -/
theorem c9_nonintegral_threshold (st : LoggerState) (q : ℚ)
    (args : List JSValue) (h0 : VERBOSE_LOG_LEVEL ≤ q)
    (h3 : q ≤ ERROR_LOG_LEVEL) :
    st.setLogLevel (JSValue.num (JSNum.fin q)) =
      Except.ok { st with _logLevel := JSNum.fin q } ∧
    (LoggerState.mk (JSNum.fin (3/2))).debug.call args = [] ∧
    (LoggerState.mk (JSNum.fin (3/2))).warn.call args =
      [{ channel := Channel.warn,
         args := LoggerState.initLogOutput YELLOW ++ args }] := by
  refine ⟨?_, ?_, ?_⟩
  · unfold LoggerState.setLogLevel
    rw [if_neg (by simp [jsTypeof]), if_neg ?_]
    · rfl
    · simp only [JSValue.toNum, JSNum.gtQ, JSNum.ltQ, Bool.or_eq_true,
        decide_eq_true_eq, not_or, not_lt]
      exact ⟨h3, h0⟩
  · simp only [LoggerState.debug, LoggerState._getLogFunc]
    rw [LoggerState.print_eq, if_neg]
    norm_num [DEBUG_LOG_LEVEL]
  · simp only [LoggerState.warn, LoggerState._getLogFunc]
    rw [LoggerState.print_eq, if_pos]
    norm_num [WARNING_LOG_LEVEL]

/-- C9 witness: assigning 3/2 to the fresh logger succeeds and stores 3/2,
and at threshold 3/2 a debug call emits nothing. -/
theorem c9_witness :
    LoggerState.initial.setLogLevel (JSValue.num (JSNum.fin (3/2))) =
      Except.ok { LoggerState.initial with _logLevel := JSNum.fin (3/2) } ∧
    (LoggerState.mk (JSNum.fin (3/2))).debug.call [JSValue.str "m"] = [] := by
  have h := c9_nonintegral_threshold LoggerState.initial (3/2)
    [JSValue.str "m"] (by norm_num [VERBOSE_LOG_LEVEL])
    (by norm_num [ERROR_LOG_LEVEL])
  exact ⟨h.1, h.2.1⟩

/-- C10: every logging invocation — any severity, the plain call or either
grouping sub-operation, any argument list, suppressed or forwarded — leaves
the logger's state unchanged; only a `logLevel` assignment can change it. -/
theorem c10_frame (st : LoggerState) (S : Severity) (g : GroupOp)
    (args : List JSValue) (op : LoggerOp) :
    (st.step (LoggerOp.invoke S g args)).1 = st ∧
    ((st.step op).1 ≠ st → ∃ v, op = LoggerOp.setLevel v) := by
  refine ⟨rfl, fun hne => ?_⟩
  cases op with
  | setLevel v => exact ⟨v, rfl⟩
  | invoke s gg a => exact absurd rfl hne

/-- C10 witness: a concrete debug invocation leaves the state unchanged,
and the state change caused by assigning the number 2 is indeed attributed
to a `logLevel` assignment. -/
theorem c10_frame_witness :
    ((LoggerState.mk (JSNum.fin 0)).step
        (LoggerOp.invoke Severity.debug GroupOp.call [])).1 =
      LoggerState.mk (JSNum.fin 0) ∧
    ∃ v, LoggerOp.setLevel (JSValue.num (JSNum.fin 2)) =
      LoggerOp.setLevel v := by
  have h := c10_frame (LoggerState.mk (JSNum.fin 0)) Severity.debug
    GroupOp.call [] (LoggerOp.setLevel (JSValue.num (JSNum.fin 2)))
  refine ⟨h.1, h.2 ?_⟩
  intro hcontra
  have hstep : (LoggerState.mk (JSNum.fin 0)).setLogLevel
      (JSValue.num (JSNum.fin 2)) = Except.ok (LoggerState.mk (JSNum.fin 2)) := by
    unfold LoggerState.setLogLevel
    rw [if_neg (by simp [jsTypeof]),
      if_neg (by norm_num [JSValue.toNum, JSNum.gtQ, JSNum.ltQ,
        VERBOSE_LOG_LEVEL, ERROR_LOG_LEVEL])]
    rfl
  apply absurd hcontra
  norm_num [LoggerState.step, hstep, LoggerState.mk.injEq]
